import Mathlib

/-!
Verification of the Vulkan backend of the multi-API renderer.

Shallow embedding of the renderer core (frame orchestration, deferred
deletion, transfer command-buffer pool, pipeline registry, memory
allocator, texture sampler replacement) translated from the C++ source
files under src/src/VK/.  Native GPU handles (VkDeviceMemory, VkSampler,
VkPipeline, ...) are modelled as natural numbers, with 0 standing for
VK_NULL_HANDLE where the source compares against VK_NULL_HANDLE.
Device-side outcomes (vkAcquireNextImageKHR results, vkQueueSubmit
success, pipeline-compilation success, surface extent after a resize)
are inputs of the embedded functions, since they are environment
responses, not program state.  Calls that the source observes only
through side effects (vkFreeMemory, vkDestroySampler, vkCmdDraw,
vkUpdateDescriptorSets) are recorded in ghost log fields so that
theorems can speak about them.
-/

/-- Texture filters, from src/src/RenderAPI/ITexture.h. -/
inductive TextureFilter
  | Nearest
  | Linear
deriving DecidableEq, Repr

/-- Texture wrap modes, from src/src/RenderAPI/ITexture.h. -/
inductive TextureWrap
  | Repeat
  | ClampToEdge
  | ClampToBorder
  | MirroredRepeat
deriving DecidableEq, Repr

/-- Primitive types, from src/src/RenderAPI/IPrimitiveType.h. -/
inductive PrimitiveType
  | Points
  | Lines
  | LineStrip
  | LineLoop
  | Triangles
  | TriangleStrip
  | TriangleFan
deriving DecidableEq, Repr

namespace VK

/-! ## Memory allocator (src/src/VK/MemoryAllocator.{h,cpp}) -/

/-- A pooled memory block, from MemoryAllocator.h. -/
structure MemoryBlock where
  memory : Nat
  size : Nat
  used : Nat
  memoryTypeIndex : Nat
deriving DecidableEq, Repr

/-- An allocation handed out by the allocator, from MemoryAllocator.h.
The C++ `MemoryBlock* owningBlock` pointer is modelled as the index of
the owning block in the allocator's block list (`none` = nullptr =
dedicated allocation). -/
structure Allocation where
  memory : Nat
  offset : Nat
  size : Nat
  owningBlock : Option Nat
deriving DecidableEq, Repr

/-- The memory-requirement triple the source obtains from
vkGetBufferMemoryRequirements / vkGetImageMemoryRequirements plus
`findMemoryType`; these are device queries, so they are modelled as an
input of the allocation functions. -/
structure MemReq where
  size : Nat
  alignment : Nat
  memoryTypeIndex : Nat
deriving DecidableEq, Repr

/-- State of the `MemoryAllocator` class: its block list, a source of
fresh VkDeviceMemory handles (vkAllocateMemory results), and a ghost
log of the handles passed to vkFreeMemory. -/
structure MemoryAllocator where
  memoryBlocks : List MemoryBlock
  nextMem : Nat
  freedLog : List Nat
deriving DecidableEq, Repr

/-- 256 MiB, `DEFAULT_BLOCK_SIZE` in MemoryAllocator.h. -/
def DEFAULT_BLOCK_SIZE : Nat := 256 * 1024 * 1024

/-- 16 MiB, the pooling threshold `16 * 1024 * 1024` in
MemoryAllocator.cpp line 30. -/
def POOL_THRESHOLD : Nat := 16 * 1024 * 1024

/-- Embeds `(x + a - 1) & ~(a - 1)`, the alignment rounding used at
MemoryAllocator.cpp lines 37 and 161.  For the power-of-two alignments
Vulkan reports, masking with `~(a-1)` equals subtracting the remainder
modulo `a`. -/
def alignUp (x a : Nat) : Nat := (x + a - 1) - (x + a - 1) % a

/-- The search loop of `findOrCreateBlock` (MemoryAllocator.cpp lines
157-167): the index of the first block of the matching memory type with
enough aligned free space. -/
def findBlockIdx (t size alignment : Nat) : List MemoryBlock → Option Nat
  | [] => none
  | b :: rest =>
    if b.memoryTypeIndex = t ∧ alignUp b.used alignment + size ≤ b.size then
      some 0
    else
      (findBlockIdx t size alignment rest).map (· + 1)

/-- `MemoryAllocator::findOrCreateBlock` (MemoryAllocator.cpp lines
154-194).  `poolAllocOk` is the success of the vkAllocateMemory call
for a new pool block; on failure the source returns nullptr (`none`).
The returned `Nat` is the index of the found or created block. -/
def findOrCreateBlock (st : MemoryAllocator) (memoryTypeIndex size alignment : Nat)
    (poolAllocOk : Bool) : Option (Nat × MemoryAllocator) :=
  match findBlockIdx memoryTypeIndex size alignment st.memoryBlocks with
  | some i => some (i, st)
  | none =>
    if poolAllocOk then
      let blockSize := max DEFAULT_BLOCK_SIZE (size * 2)
      let block : MemoryBlock :=
        { memory := st.nextMem, size := blockSize, used := 0
          memoryTypeIndex := memoryTypeIndex }
      some (st.memoryBlocks.length,
        { st with memoryBlocks := st.memoryBlocks ++ [block], nextMem := st.nextMem + 1 })
    else
      none

/-- Replace the `used` mark of the block at index `i` (the write
`block->used = alignedOffset + memRequirements.size` at
MemoryAllocator.cpp line 47). -/
def setBlockUsed : List MemoryBlock → Nat → Nat → List MemoryBlock
  | [], _, _ => []
  | b :: rest, 0, u => { b with used := u } :: rest
  | b :: rest, i + 1, u => b :: setBlockUsed rest i u

/-- The dedicated-allocation fallback shared by both allocation paths
(MemoryAllocator.cpp lines 56-74 and 86-104): a fresh vkAllocateMemory
sized exactly to the requirement, at offset 0, with no owning block.
`dedicatedOk` is the success of that vkAllocateMemory call. -/
def dedicatedAlloc (st : MemoryAllocator) (size : Nat) (dedicatedOk : Bool)
    (errMsg : String) : Except String (Allocation × MemoryAllocator) :=
  if dedicatedOk then
    .ok ({ memory := st.nextMem, offset := 0, size := size, owningBlock := none },
         { st with nextMem := st.nextMem + 1 })
  else
    .error errMsg

/-- `MemoryAllocator::allocateBufferMemory` (MemoryAllocator.cpp lines
21-75). -/
def allocateBufferMemory (st : MemoryAllocator) (req : MemReq)
    (poolAllocOk dedicatedOk : Bool) : Except String (Allocation × MemoryAllocator) :=
  if req.size < POOL_THRESHOLD then
    match findOrCreateBlock st req.memoryTypeIndex req.size req.alignment poolAllocOk with
    | some (i, st1) =>
      let b := st1.memoryBlocks.getD i { memory := 0, size := 0, used := 0, memoryTypeIndex := 0 }
      let alignedOffset := alignUp b.used req.alignment
      if alignedOffset + req.size ≤ b.size then
        .ok ({ memory := b.memory, offset := alignedOffset, size := req.size
               owningBlock := some i },
             { st1 with memoryBlocks := setBlockUsed st1.memoryBlocks i (alignedOffset + req.size) })
      else
        dedicatedAlloc st1 req.size dedicatedOk "Failed to allocate buffer memory"
    | none =>
      dedicatedAlloc st req.size dedicatedOk "Failed to allocate buffer memory"
  else
    dedicatedAlloc st req.size dedicatedOk "Failed to allocate buffer memory"

/-- `MemoryAllocator::allocateImageMemory` (MemoryAllocator.cpp lines
77-105): images always get a dedicated allocation, whatever their
size. -/
def allocateImageMemory (st : MemoryAllocator) (req : MemReq)
    (dedicatedOk : Bool) : Except String (Allocation × MemoryAllocator) :=
  dedicatedAlloc st req.size dedicatedOk "Failed to allocate image memory"

/-- `MemoryAllocator::free` (MemoryAllocator.cpp lines 107-121): pooled
allocations only log; dedicated allocations are vkFreeMemory'd at
once. -/
def MemoryAllocator.free (st : MemoryAllocator) (allocation : Allocation) : MemoryAllocator :=
  if allocation.owningBlock.isSome then
    st
  else
    { st with freedLog := st.freedLog ++ [allocation.memory] }

/-! ## Shader registry (src/src/VK/ShaderManager.{h,cpp}) and pipelines -/

/-- The pipeline state the claims observe: the cull mode chosen at build
time (`rasterizer.cullMode = m_cullingEnabled ? VK_CULL_MODE_BACK_BIT :
VK_CULL_MODE_NONE`, Renderer.cpp line 631, `cullBack = true` meaning
back-face culling) and the render pass generation / extent the pipeline
was compiled against. -/
structure Pipeline where
  cullBack : Bool
  renderPassGen : Nat
  extent : Nat × Nat
deriving DecidableEq, Repr

/-- A stored shader program, from ShaderManager.h: two shader modules
and an optional pipeline (null until built). -/
structure ShaderProgram where
  vertexModule : Nat
  fragmentModule : Nat
  pipeline : Option Pipeline
  isValid : Bool
deriving DecidableEq, Repr

/-- The `m_shaders` map of ShaderManager, as an association list. -/
abbrev ShaderMap := List (String × ShaderProgram)

/-- `Renderer::createPipelineForShader` (Renderer.cpp lines 560-688).
The fixed-function setup is constant; the observable inputs are the
culling flag, the render pass and the extent.  `buildOk` is the success
of vkCreateGraphicsPipelines; on failure the source logs and returns
VK_NULL_HANDLE (`none`). -/
def createPipelineForShader (cullingEnabled : Bool) (renderPassGen : Nat)
    (extent : Nat × Nat) (buildOk : Bool) : Option Pipeline :=
  if buildOk then
    some { cullBack := cullingEnabled, renderPassGen := renderPassGen, extent := extent }
  else
    none

/-- `ShaderManager::destroyAllPipelines` (ShaderManager.cpp lines
225-239): when the device is live, every stored program's pipeline is
destroyed and nulled. -/
def destroyAllPipelines (deviceReady : Bool) (mgr : ShaderMap) : ShaderMap :=
  if deviceReady then
    mgr.map (fun e => (e.1, { e.2 with pipeline := none }))
  else
    mgr

/-- Modelled from the spec: `ShaderManager::createAllPipelines` is called
from Renderer.cpp lines 1024 and 1482 but its definition is not among the
files under src/ (src/src/VK/ShaderManager.cpp is an earlier revision of the
class, without it).  Per the spec (§4.1, §4.3 `rebuildAll()`), it rebuilds
every registered pipeline against the current render pass / extent, going
through `Renderer::createPipelineForShader` as `ShaderProgram::createPipeline`
does (ShaderProgram.cpp lines 194-213). -/
def createAllPipelines (cullingEnabled : Bool) (renderPassGen : Nat)
    (extent : Nat × Nat) (buildOk : Bool) (mgr : ShaderMap) : ShaderMap :=
  mgr.map (fun e =>
    (e.1, { e.2 with pipeline := createPipelineForShader cullingEnabled renderPassGen extent buildOk }))

/-! ## Renderer state (src/src/VK/Renderer.{h,cpp}) -/

/-- `MAX_FRAMES_IN_FLIGHT` (Renderer.h line 235). -/
def MAX_FRAMES_IN_FLIGHT : Nat := 2

/-- `TRANSFER_COMMAND_BUFFER_POOL_SIZE` (Renderer.h line 202). -/
def TRANSFER_COMMAND_BUFFER_POOL_SIZE : Nat := 4

/-- `DeferredDeletion::Type` (Renderer.h line 41). -/
inductive DeletionKind
  | Sampler
  | ImageView
  | Image
  | DeviceMemory
  | Buffer
deriving DecidableEq, Repr

/-- A deferred-deletion record (Renderer.h lines 39-45). -/
structure DeferredDeletion where
  type : DeletionKind
  handle : Nat
  frameIndex : Nat
deriving DecidableEq, Repr

/-- A pooled transfer slot (Renderer.h lines 48-53). -/
structure TransferCommandBuffer where
  commandBuffer : Nat
  fence : Nat
  inUse : Bool
deriving DecidableEq, Repr

/-- The renderer state the claims touch.  Fences are identified with the
frame-slot index owning them (`m_inFlightFences[k]` is slot `k`'s fence),
so `imagesInFlight` stores the claiming slot index, `none` being
VK_NULL_HANDLE.  Ghost fields (not variables of the C++ class, but logs
of its observable effects): `outstanding` is the set of submitted GPU
batches `(slot, image)` whose fence has not been waited yet — waiting a
fence is the only way the CPU learns completion; `absFrame` counts frames
monotonically while `currentFrame` wraps modulo MAX_FRAMES_IN_FLIGHT;
`destroyedLog` records native destroy calls issued by the deletion sweep;
`drawLog` records vkCmdDraw calls; `samplerLog` records vkCreateSampler
results with the filters baked into each sampler;
`transferFenceWaits` records transfer-slot fence wait+reset pairs. -/
structure RendererState where
  deviceReady : Bool
  currentFrame : Nat
  imageIndex : Nat
  imagesInFlight : List (Option Nat)
  frameBegun : Bool
  framebufferResized : Bool
  cullingEnabled : Bool
  currentShader : Option String
  shaders : ShaderMap
  renderPassGen : Nat
  swapChainExtent : Nat × Nat
  deferredDeletions : List DeferredDeletion
  transferCommandBuffers : List TransferCommandBuffer
  nextHandle : Nat
  outstanding : List (Nat × Nat)
  absFrame : Nat
  destroyedLog : List (DeletionKind × Nat)
  drawLog : List (Nat × Nat)
  samplerLog : List (Nat × TextureFilter × TextureFilter)
  transferFenceWaits : List Nat
deriving DecidableEq, Repr

/-- Result of vkAcquireNextImageKHR as the source discriminates it
(Renderer.cpp lines 1249-1261). -/
inductive AcquireResult
  | success (imageIndex : Nat)
  | suboptimal (imageIndex : Nat)
  | outOfDate
  | failure
deriving DecidableEq, Repr

/-- Result of vkQueuePresentKHR as the source discriminates it
(Renderer.cpp lines 1406-1416); `stale` covers both
VK_ERROR_OUT_OF_DATE_KHR and VK_SUBOPTIMAL_KHR. -/
inductive PresentOutcome
  | success
  | stale
  | failure
deriving DecidableEq, Repr

/-- Environment responses of the device for one frame / one call. -/
structure Dev where
  acquire : AcquireResult
  beginOk : Bool
  endOk : Bool
  submitOk : Bool
  present : PresentOutcome
  pipelineBuildOk : Bool
  surfaceExtent : Nat × Nat
  imageCount : Nat
deriving DecidableEq, Repr

/-- The pipeline of the currently bound shader:
`m_currentShader->getPipeline()`, with `none` when no shader is bound or
it has no compiled pipeline (Renderer.cpp line 1233). -/
def currentPipeline (s : RendererState) : Option Pipeline :=
  match s.currentShader with
  | none => none
  | some n =>
    match s.shaders.lookup n with
    | none => none
    | some prog => prog.pipeline

/-- vkWaitForFences on slot `slot`'s in-flight fence: by the time the
wait returns, every batch submitted with that fence has completed, so it
leaves the outstanding set. -/
def waitFence (s : RendererState) (slot : Nat) : RendererState :=
  { s with outstanding := s.outstanding.filter (fun p => p.1 != slot) }

/-! ## Deferred deletion queue (Renderer.cpp lines 1644-1754) -/

/-- Shared shape of the five `deferDelete*` members: push a record
tagged with the current frame index. -/
def deferDelete (s : RendererState) (kind : DeletionKind) (handle : Nat) : RendererState :=
  { s with deferredDeletions := s.deferredDeletions ++
      [{ type := kind, handle := handle, frameIndex := s.currentFrame }] }

/-- `Renderer::deferDeleteSampler` (Renderer.cpp lines 1644-1655). -/
def deferDeleteSampler (s : RendererState) (sampler : Nat) : RendererState :=
  if sampler = 0 then s else deferDelete s DeletionKind.Sampler sampler

/-- `Renderer::deferDeleteImageView` (Renderer.cpp lines 1657-1668). -/
def deferDeleteImageView (s : RendererState) (imageView : Nat) : RendererState :=
  if imageView = 0 then s else deferDelete s DeletionKind.ImageView imageView

/-- `Renderer::deferDeleteImage` (Renderer.cpp lines 1670-1681). -/
def deferDeleteImage (s : RendererState) (image : Nat) : RendererState :=
  if image = 0 then s else deferDelete s DeletionKind.Image image

/-- `Renderer::deferDeleteDeviceMemory` (Renderer.cpp lines 1683-1694). -/
def deferDeleteDeviceMemory (s : RendererState) (memory : Nat) : RendererState :=
  if memory = 0 then s else deferDelete s DeletionKind.DeviceMemory memory

/-- `Renderer::deferDeleteBuffer` (Renderer.cpp lines 1696-1707). -/
def deferDeleteBuffer (s : RendererState) (buffer : Nat) : RendererState :=
  if buffer = 0 then s else deferDelete s DeletionKind.Buffer buffer

/-- The "frame distance" of the sweep (Renderer.cpp line 1718):
`(m_currentFrame + MAX_FRAMES_IN_FLIGHT - it->frameIndex) %
(MAX_FRAMES_IN_FLIGHT * 10)`.  Both operands are frame-slot indices
below MAX_FRAMES_IN_FLIGHT in every reachable state, so the uint32
arithmetic never wraps and Nat arithmetic coincides with it. -/
def frameDistance (current frameIndex : Nat) : Nat :=
  (current + MAX_FRAMES_IN_FLIGHT - frameIndex) % (MAX_FRAMES_IN_FLIGHT * 10)

/-- `Renderer::processDeferredDeletions` (Renderer.cpp lines 1709-1754):
destroy (and drop) every record whose frame distance is at least
MAX_FRAMES_IN_FLIGHT, keep the rest in order. -/
def processDeferredDeletions (s : RendererState) : RendererState :=
  let p := s.deferredDeletions.partition
    (fun r => MAX_FRAMES_IN_FLIGHT ≤ frameDistance s.currentFrame r.frameIndex)
  { s with deferredDeletions := p.2
           destroyedLog := s.destroyedLog ++ p.1.map (fun r => (r.type, r.handle)) }

/-! ## Swapchain recreation (Renderer.cpp lines 989-1027) -/

/-- `Renderer::recreateSwapChain`.  The minimization loop ends with the
first nonzero framebuffer size, `dev.surfaceExtent`; vkDeviceWaitIdle
completes every submitted batch; then all pipelines are destroyed, the
swapchain / views / render pass / framebuffers are rebuilt (a fresh
render pass generation), image-in-flight tracking is reset to null
entries sized to the new image count, and every loaded shader's pipeline
is rebuilt.  `deviceReady` stands for the `m_shaderManager` /
`m_device` null checks guarding the pipeline work. -/
def recreateSwapChain (dev : Dev) (s : RendererState) : RendererState :=
  let s1 := { s with outstanding := [] }
  let s2 := { s1 with shaders := destroyAllPipelines s1.deviceReady s1.shaders }
  let s3 := { s2 with renderPassGen := s2.renderPassGen + 1
                      swapChainExtent := dev.surfaceExtent }
  let s4 := { s3 with imagesInFlight := List.replicate dev.imageCount none }
  if s4.deviceReady then
    { s4 with shaders := createAllPipelines s4.cullingEnabled s4.renderPassGen
                           s4.swapChainExtent dev.pipelineBuildOk s4.shaders }
  else
    s4

/-! ## Render-state toggles (Renderer.cpp lines 1454-1486) -/

/-- `Renderer::enableDepthTest` (Renderer.cpp lines 1454-1456): the
function body is empty. -/
def enableDepthTest (s : RendererState) (_enable : Bool) : RendererState :=
  s

/-- `Renderer::enableBlending` (Renderer.cpp lines 1458-1460): the
function body is empty. -/
def enableBlending (s : RendererState) (_enable : Bool) : RendererState :=
  s

/-- `Renderer::enableCulling` (Renderer.cpp lines 1462-1486): early
return when the value does not change; otherwise store the flag and,
with a live device and shader manager, wait for device idle, destroy
every pipeline and rebuild them all with the new culling state.
`buildOk` is the vkCreateGraphicsPipelines success for the rebuilds. -/
def enableCulling (buildOk : Bool) (s : RendererState) (enable : Bool) : RendererState :=
  if s.cullingEnabled = enable then
    s
  else
    let s1 := { s with cullingEnabled := enable }
    if s1.deviceReady then
      let s2 := { s1 with outstanding := [] }
      let s3 := { s2 with shaders := destroyAllPipelines s2.deviceReady s2.shaders }
      { s3 with shaders := createAllPipelines s3.cullingEnabled s3.renderPassGen
                             s3.swapChainExtent buildOk s3.shaders }
    else
      s1

/-! ## Frame protocol (Renderer.cpp lines 1230-1425, 1488-1533) -/

/-- The synchronization-relevant operations `beginFrame` performs, in
program order, used to state ordering properties. -/
inductive Action
  | waitOwnFence (slot : Nat)
  | waitImageFence (slot : Nat)
  | setImageInFlight (image slot : Nat)
  | resetOwnFence (slot : Nat)
  | beginRecording (image : Nat)
deriving DecidableEq, Repr

/-- `Renderer::beginFrame` (Renderer.cpp lines 1230-1355).  Returns the
new state and the chronological list of synchronization actions taken.
Skips the frame (no state change, no actions) when no shader with a
compiled pipeline is bound; waits the current slot's fence; acquires
(recreating on OUT_OF_DATE, throwing on hard failure); waits the
acquired image's in-flight fence when one is recorded; claims the image
for the current slot; resets the slot fence; begins recording. -/
def beginFrame (dev : Dev) (s : RendererState) : Except String (RendererState × List Action) :=
  match currentPipeline s with
  | none => .ok (s, [])
  | some _ =>
    let s1 := waitFence s s.currentFrame
    match dev.acquire with
    | .outOfDate =>
      .ok (recreateSwapChain dev s1, [Action.waitOwnFence s.currentFrame])
    | .failure => .error "Failed to acquire swap chain image"
    | .success i | .suboptimal i =>
      let s2 := { s1 with imageIndex := i }
      match s2.imagesInFlight.getD i none with
      | some f =>
        let s3 := waitFence s2 f
        let s4 := { s3 with imagesInFlight := s3.imagesInFlight.set i (some s3.currentFrame) }
        if dev.beginOk then
          .ok ({ s4 with frameBegun := true },
            [Action.waitOwnFence s.currentFrame, Action.waitImageFence f,
             Action.setImageInFlight i s.currentFrame, Action.resetOwnFence s.currentFrame,
             Action.beginRecording i])
        else
          .error "Failed to begin recording command buffer"
      | none =>
        let s4 := { s2 with imagesInFlight := s2.imagesInFlight.set i (some s2.currentFrame) }
        if dev.beginOk then
          .ok ({ s4 with frameBegun := true },
            [Action.waitOwnFence s.currentFrame,
             Action.setImageInFlight i s.currentFrame, Action.resetOwnFence s.currentFrame,
             Action.beginRecording i])
        else
          .error "Failed to begin recording command buffer"

/-- `Renderer::endFrame` (Renderer.cpp lines 1357-1425): early return
when the frame was not begun; end recording and submit the batch fenced
with the current slot's fence; present (recreating the swapchain on a
stale result or a pending resize, throwing on hard failure); advance the
frame slot modulo MAX_FRAMES_IN_FLIGHT; run the deferred-deletion
sweep; clear the frame-begun flag. -/
def endFrame (dev : Dev) (s : RendererState) : Except String RendererState :=
  if s.frameBegun = false then
    .ok s
  else if dev.endOk = false then
    .error "Failed to record command buffer"
  else if dev.submitOk = false then
    .error "Failed to submit draw command buffer"
  else
    let s1 := { s with outstanding := (s.currentFrame, s.imageIndex) :: s.outstanding }
    match
      (if dev.present = PresentOutcome.stale ∨ s1.framebufferResized then
        Except.ok (recreateSwapChain dev { s1 with framebufferResized := false })
      else if dev.present = PresentOutcome.failure then
        Except.error "Failed to present swap chain image"
      else
        Except.ok s1 : Except String RendererState)
    with
    | .error e => .error e
    | .ok s2 =>
      let s3 := { s2 with currentFrame := (s2.currentFrame + 1) % MAX_FRAMES_IN_FLIGHT
                          absFrame := s2.absFrame + 1 }
      let s4 := processDeferredDeletions s3
      .ok { s4 with frameBegun := false }

/-- `Renderer::drawArrays` (Renderer.cpp lines 1488-1514): begin the
frame if needed, bail out silently when it could not be begun, record
the draw, end the frame. -/
def drawArrays (dev : Dev) (s : RendererState) (_mode : PrimitiveType)
    (first count : Nat) : Except String RendererState :=
  match
    (if s.frameBegun then Except.ok (s, []) else beginFrame dev s :
      Except String (RendererState × List Action))
  with
  | .error e => .error e
  | .ok (s1, _) =>
    if s1.frameBegun = false then
      .ok s1
    else
      let s2 := { s1 with drawLog := s1.drawLog ++ [(first, count)] }
      endFrame dev s2

/-- `Renderer::drawElements` (Renderer.cpp lines 1516-1533): same shape;
the draw is issued as `vkCmdDraw(count, 1, 0, 0)`. -/
def drawElements (dev : Dev) (s : RendererState) (_mode : PrimitiveType)
    (count : Nat) (_indexType : Nat) : Except String RendererState :=
  match
    (if s.frameBegun then Except.ok (s, []) else beginFrame dev s :
      Except String (RendererState × List Action))
  with
  | .error e => .error e
  | .ok (s1, _) =>
    if s1.frameBegun = false then
      .ok s1
    else
      let s2 := { s1 with drawLog := s1.drawLog ++ [(0, count)] }
      endFrame dev s2

/-! ## Transfer command-buffer pool (Renderer.cpp lines 807-843) -/

/-- Set the in-use flag of the slot at index `i`. -/
def setSlotInUse : List TransferCommandBuffer → Nat → Bool → List TransferCommandBuffer
  | [], _, _ => []
  | c :: rest, 0, u => { c with inUse := u } :: rest
  | c :: rest, i + 1, u => c :: setSlotInUse rest i u

/-- The first loop of `acquireTransferCommandBuffer` (Renderer.cpp lines
810-821): index of the first slot whose in-use flag is clear. -/
def findFreeSlotIdx : List TransferCommandBuffer → Option Nat
  | [] => none
  | c :: rest =>
    if c.inUse = false then some 0 else (findFreeSlotIdx rest).map (· + 1)

/-- `Renderer::acquireTransferCommandBuffer` (Renderer.cpp lines
807-835).  A free slot is taken after waiting and resetting its fence;
with every slot in use, the second loop waits, resets and reclaims the
fence of its first iteration's slot, i.e. slot 0; the trailing throw is
only reached with an empty pool.  Returns the index of the acquired
slot; the fence wait+reset pair is recorded in `transferFenceWaits`. -/
def acquireTransferCommandBuffer (s : RendererState) :
    Except String (Nat × RendererState) :=
  match findFreeSlotIdx s.transferCommandBuffers with
  | some i =>
    .ok (i, { s with transferCommandBuffers := setSlotInUse s.transferCommandBuffers i true
                     transferFenceWaits := s.transferFenceWaits ++ [i] })
  | none =>
    match s.transferCommandBuffers with
    | [] => .error "Failed to acquire transfer command buffer"
    | _ :: _ =>
      .ok (0, { s with transferCommandBuffers := setSlotInUse s.transferCommandBuffers 0 true
                       transferFenceWaits := s.transferFenceWaits ++ [0] })

/-- `Renderer::releaseTransferCommandBuffer` (Renderer.cpp lines
837-843): clear the slot's in-use flag. -/
def releaseTransferCommandBuffer (s : RendererState) (i : Nat) : RendererState :=
  { s with transferCommandBuffers := setSlotInUse s.transferCommandBuffers i false }

/-! ## Texture sampler replacement (src/src/VK/Texture.cpp) -/

/-- The parts of `VK::Texture` the sampler-replacement claims touch
(Texture.h / Texture.cpp).  Handles are `Nat` with 0 for
VK_NULL_HANDLE.  `descriptorUpdates` is a ghost log of the sampler
handle written by each vkUpdateDescriptorSets call on this texture's
descriptor set. -/
structure Texture where
  sampler : Nat
  descriptorSet : Nat
  imageView : Nat
  minFilter : TextureFilter
  magFilter : TextureFilter
  descriptorUpdates : List Nat
deriving DecidableEq, Repr

/-- `Texture::createSampler` (Texture.cpp lines 376-400): a fresh
sampler handle baked with the texture's current min/mag filters; the
renderer's `samplerLog` ghost-records which filters each created sampler
carries. -/
def createSampler (t : Texture) (s : RendererState) : Texture × RendererState :=
  ({ t with sampler := s.nextHandle },
   { s with nextHandle := s.nextHandle + 1
            samplerLog := s.samplerLog ++ [(s.nextHandle, t.minFilter, t.magFilter)] })

/-- `Texture::setFilter` (Texture.cpp lines 235-271): store the new
filters; if a sampler exists, enqueue it for deferred deletion and null
it; create the replacement sampler; if the texture has a descriptor
set, write the new sampler into it. -/
def setFilter (t : Texture) (s : RendererState) (minFilter magFilter : TextureFilter) :
    Texture × RendererState :=
  let t1 := { t with minFilter := minFilter, magFilter := magFilter }
  let r1 :=
    if t1.sampler ≠ 0 then
      ({ t1 with sampler := 0 }, deferDeleteSampler s t1.sampler)
    else
      (t1, s)
  let r2 := createSampler r1.1 r1.2
  if r2.1.descriptorSet ≠ 0 then
    ({ r2.1 with descriptorUpdates := r2.1.descriptorUpdates ++ [r2.1.sampler] }, r2.2)
  else
    r2

/-! ## A concrete post-initialization state, for witnesses -/

/-- A renderer state as left by a successful `initialize`: frame slot 0,
`imageCount` swapchain images with no in-flight claim, signaled fences,
an all-free transfer pool of TRANSFER_COMMAND_BUFFER_POOL_SIZE slots,
and no shaders loaded yet. -/
def initState (imageCount : Nat) : RendererState :=
  { deviceReady := true
    currentFrame := 0
    imageIndex := 0
    imagesInFlight := List.replicate imageCount none
    frameBegun := false
    framebufferResized := false
    cullingEnabled := false
    currentShader := none
    shaders := []
    renderPassGen := 0
    swapChainExtent := (800, 600)
    deferredDeletions := []
    transferCommandBuffers :=
      (List.range TRANSFER_COMMAND_BUFFER_POOL_SIZE).map
        (fun k => { commandBuffer := k, fence := k, inUse := false })
    nextHandle := 1
    outstanding := []
    absFrame := 0
    destroyedLog := []
    drawLog := []
    samplerLog := []
    transferFenceWaits := [] }

/-- A device run in which every Vulkan call reports success. -/
def okDev : Dev :=
  { acquire := AcquireResult.success 0, beginOk := true, endOk := true, submitOk := true
    present := PresentOutcome.success, pipelineBuildOk := true
    surfaceExtent := (800, 600), imageCount := 2 }

/-! ## Helper lemmas -/

theorem findFreeSlotIdx_some (d : TransferCommandBuffer) :
    ∀ (l : List TransferCommandBuffer) (i : Nat), findFreeSlotIdx l = some i →
      i < l.length ∧ (l.getD i d).inUse = false := by
  intro l
  induction l with
  | nil => intro i h; simp [findFreeSlotIdx] at h
  | cons c rest ih =>
    intro i h
    by_cases hc : c.inUse = false
    · simp [findFreeSlotIdx, hc] at h
      subst h
      simpa [List.getD] using hc
    · simp [findFreeSlotIdx, hc] at h
      obtain ⟨j, hj, rfl⟩ := h
      refine ⟨Nat.succ_lt_succ (ih j hj).1, ?_⟩
      simpa [List.getD] using (ih j hj).2

theorem setSlotInUse_getD (d : TransferCommandBuffer) :
    ∀ (l : List TransferCommandBuffer) (i : Nat) (u : Bool), i < l.length →
      (setSlotInUse l i u).getD i d = { l.getD i d with inUse := u } := by
  intro l
  induction l with
  | nil => intro i u h; simp at h
  | cons c rest ih =>
    intro i u h
    cases i with
    | zero => simp [setSlotInUse, List.getD]
    | succ j =>
      have hj : j < rest.length := Nat.lt_of_succ_lt_succ h
      simpa [setSlotInUse, List.getD] using ih j u hj

theorem setSlotInUse_length :
    ∀ (l : List TransferCommandBuffer) (i : Nat) (u : Bool),
      (setSlotInUse l i u).length = l.length := by
  intro l
  induction l with
  | nil => intro i u; rfl
  | cons c rest ih =>
    intro i u
    cases i with
    | zero => rfl
    | succ j => simpa [setSlotInUse] using ih j u

/-! ## C10 -/

/-- C10: in the Vulkan backend, `enableDepthTest` and `enableBlending`
are no-ops for every boolean argument: the state they return is the
state they were given, so no pipeline is rebuilt and no subsequent
operation can observe any effect. -/
theorem enableDepthTest_enableBlending_noop (s : RendererState) (enable : Bool) :
    enableDepthTest s enable = s ∧ enableBlending s enable = s :=
  ⟨rfl, rfl⟩

/-! ## C9 -/

/-- C9: `MemoryAllocator::free` on a dedicated allocation (no owning
block) releases its device memory immediately (the handle is passed to
vkFreeMemory) while leaving the block list untouched; on a pooled
allocation it leaves the allocator state entirely unchanged — every
block's handle, size and used offset are as before, so pooled space is
never individually reclaimed. -/
theorem free_dedicated_vs_pooled (st : MemoryAllocator) (a : Allocation) :
    (∀ i, a.owningBlock = some i → st.free a = st) ∧
    (a.owningBlock = none →
      st.free a = { st with freedLog := st.freedLog ++ [a.memory] } ∧
      (st.free a).memoryBlocks = st.memoryBlocks) := by
  constructor
  · intro i h
    simp [MemoryAllocator.free, h]
  · intro h
    simp [MemoryAllocator.free, h]

/-- Witness for C9 at a concrete allocator: a pooled allocation leaves
the state untouched and a dedicated one logs a vkFreeMemory of its
handle. -/
theorem free_dedicated_vs_pooled_witness :
    (MemoryAllocator.free
        { memoryBlocks := [{ memory := 1, size := 100, used := 10, memoryTypeIndex := 0 }]
          nextMem := 2, freedLog := [] }
        { memory := 1, offset := 0, size := 10, owningBlock := some 0 } =
      { memoryBlocks := [{ memory := 1, size := 100, used := 10, memoryTypeIndex := 0 }]
        nextMem := 2, freedLog := [] }) ∧
    (MemoryAllocator.free
        { memoryBlocks := [{ memory := 1, size := 100, used := 10, memoryTypeIndex := 0 }]
          nextMem := 2, freedLog := [] }
        { memory := 7, offset := 0, size := 10, owningBlock := none }).freedLog = [7] := by
  constructor
  · exact (free_dedicated_vs_pooled _ _).1 0 rfl
  · rw [((free_dedicated_vs_pooled _
      { memory := 7, offset := 0, size := 10, owningBlock := none }).2 rfl).1]
    rfl

/-! ## C4 -/

/-- C4: with at least one slot in the pool,
`acquireTransferCommandBuffer` never reaches its final throw: it always
returns the index of a slot now marked in-use after waiting on and
resetting that slot's fence.  When some slot is free it returns the
first free one; when every slot is in use it reclaims slot 0, the one
whose fence the second loop waits on first. -/
theorem acquireTransferCommandBuffer_never_fails (s : RendererState)
    (h : s.transferCommandBuffers ≠ []) :
    ∃ i s1, acquireTransferCommandBuffer s = .ok (i, s1) ∧
      i < s.transferCommandBuffers.length ∧
      (s1.transferCommandBuffers.getD i { commandBuffer := 0, fence := 0, inUse := false }).inUse
        = true ∧
      s1.transferFenceWaits = s.transferFenceWaits ++ [i] ∧
      (∀ j, findFreeSlotIdx s.transferCommandBuffers = some j →
        i = j ∧
        (s.transferCommandBuffers.getD i
          { commandBuffer := 0, fence := 0, inUse := false }).inUse = false) ∧
      (findFreeSlotIdx s.transferCommandBuffers = none → i = 0) := by
  match hf : findFreeSlotIdx s.transferCommandBuffers with
  | some i =>
    have hspec := findFreeSlotIdx_some { commandBuffer := 0, fence := 0, inUse := false }
      s.transferCommandBuffers i hf
    have hok : acquireTransferCommandBuffer s =
        .ok (i, { s with transferCommandBuffers := setSlotInUse s.transferCommandBuffers i true
                         transferFenceWaits := s.transferFenceWaits ++ [i] }) := by
      simp [acquireTransferCommandBuffer, hf]
    refine ⟨i, _, hok, hspec.1, ?_, rfl, ?_, ?_⟩
    · rw [setSlotInUse_getD _ _ _ _ hspec.1]
    · intro j hj
      cases hj
      exact ⟨rfl, hspec.2⟩
    · intro hn; exact absurd hn (by simp)
  | none =>
    have hlen : 0 < s.transferCommandBuffers.length :=
      List.length_pos.mpr h
    obtain ⟨c, rest, hl⟩ : ∃ c rest, s.transferCommandBuffers = c :: rest := by
      match hl2 : s.transferCommandBuffers with
      | [] => exact absurd hl2 h
      | c :: rest => exact ⟨c, rest, rfl⟩
    have hok : acquireTransferCommandBuffer s =
        .ok (0, { s with transferCommandBuffers := setSlotInUse s.transferCommandBuffers 0 true
                         transferFenceWaits := s.transferFenceWaits ++ [0] }) := by
      have hf2 : findFreeSlotIdx (c :: rest) = none := hl ▸ hf
      simp only [acquireTransferCommandBuffer, hf, hl, hf2]
    refine ⟨0, _, hok, hlen, ?_, rfl, ?_, ?_⟩
    · rw [setSlotInUse_getD _ _ _ _ hlen]
    · intro j hj; exact absurd hj (by simp)
    · intro _; rfl

/-- Witness for C4: a pool of four busy slots still yields a successful
acquisition of slot 0. -/
theorem acquireTransferCommandBuffer_never_fails_witness :
    ∃ i s1,
      acquireTransferCommandBuffer
        { initState 2 with transferCommandBuffers :=
            (List.range 4).map (fun k => { commandBuffer := k, fence := k, inUse := true }) } =
        .ok (i, s1) ∧
      i < 4 ∧
      (s1.transferCommandBuffers.getD i
        { commandBuffer := 0, fence := 0, inUse := false }).inUse = true := by
  obtain ⟨i, s1, h1, h2, h3, -⟩ :=
    acquireTransferCommandBuffer_never_fails
      { initState 2 with transferCommandBuffers :=
          (List.range 4).map (fun k => { commandBuffer := k, fence := k, inUse := true }) }
      (by decide)
  exact ⟨i, s1, h1, by simpa using h2, h3⟩

/-! ## C3 -/

/-- C3: when no shader is bound or the bound shader's pipeline is null
(`currentPipeline s = none`) and no frame is in progress, `beginFrame`
returns having changed nothing and taken no synchronization action
(only a warning is logged), a `drawArrays` or `drawElements` call does
nothing, and the subsequent `endFrame` does nothing — all four return
`.ok`, never an exception, for every device behavior `dev`. -/
theorem draw_without_pipeline_skips_frame (dev : Dev) (s : RendererState)
    (mode : PrimitiveType) (first count indexType : Nat)
    (hp : currentPipeline s = none) (hb : s.frameBegun = false) :
    beginFrame dev s = .ok (s, []) ∧
    drawArrays dev s mode first count = .ok s ∧
    drawElements dev s mode count indexType = .ok s ∧
    endFrame dev s = .ok s := by
  have h1 : beginFrame dev s = .ok (s, []) := by
    simp [beginFrame, hp]
  refine ⟨h1, ?_, ?_, ?_⟩
  · simp [drawArrays, hb, h1]
  · simp [drawElements, hb, h1]
  · simp [endFrame, hb]

/-- Witness for C3: a freshly initialized renderer with no shader bound
skips the frame of a concrete draw call without an exception. -/
theorem draw_without_pipeline_skips_frame_witness :
    drawArrays okDev (initState 2) PrimitiveType.Triangles 0 3 = .ok (initState 2) ∧
    endFrame okDev (initState 2) = .ok (initState 2) :=
  ⟨(draw_without_pipeline_skips_frame okDev (initState 2) PrimitiveType.Triangles 0 3 4
      rfl rfl).2.1,
   (draw_without_pipeline_skips_frame okDev (initState 2) PrimitiveType.Triangles 0 3 4
      rfl rfl).2.2.2⟩

/-! ## C1 -/

/-- C1: the deferred-deletion sweep destroys a record enqueued while
`m_currentFrame = 0` at the end of that very frame.  Concretely: with
frame slot 0 active and a frame begun, `deferDeleteSampler 42` enqueues
a record tagged `frameIndex = 0`; the single following `endFrame`
advances the slot counter to 1 and its sweep computes `frameDistance =
(1 + 2 - 0) % 20 = 3 ≥ 2`, so the sampler is destroyed after only one
frame has elapsed (ghost counter `absFrame` goes from 0 to 1), not the
two frames the claim (and the sweep's own comment, Renderer.cpp lines
1711-1712) requires.  The root cause is that `frameIndex` stores the
mod-2 frame-slot index, not a monotonic frame counter. -/
theorem deferredDeletion_destroyed_after_one_frame :
    (deferDeleteSampler
      { initState 2 with frameBegun := true, imagesInFlight := [some 0, none] }
      42).deferredDeletions =
        [{ type := DeletionKind.Sampler, handle := 42, frameIndex := 0 }] ∧
    (deferDeleteSampler
      { initState 2 with frameBegun := true, imagesInFlight := [some 0, none] }
      42).absFrame = 0 ∧
    (endFrame okDev (deferDeleteSampler
        { initState 2 with frameBegun := true, imagesInFlight := [some 0, none] } 42)).map
      (fun s => (s.destroyedLog, s.deferredDeletions, s.absFrame, s.currentFrame)) =
      .ok ([(DeletionKind.Sampler, 42)], [], 1, 1) := by
  refine ⟨?_, ?_, ?_⟩ <;> rfl

/-! ## C5 -/

/-- The texture of the C5 scenario: uploaded (live sampler 5, image
view 3) with an allocated descriptor set (7). -/
def c5texture : Texture :=
  { sampler := 5, descriptorSet := 7, imageView := 3
    minFilter := TextureFilter.Linear, magFilter := TextureFilter.Linear
    descriptorUpdates := [] }

/-- The renderer of the C5 scenario; the next two vkCreateSampler calls
return handles 10 and 11. -/
def c5renderer : RendererState := { initState 2 with nextHandle := 10 }

/-- The texture/renderer pair after two same-frame `setFilter` calls. -/
def c5after : Texture × RendererState :=
  setFilter (setFilter c5texture c5renderer TextureFilter.Nearest TextureFilter.Nearest).1
    (setFilter c5texture c5renderer TextureFilter.Nearest TextureFilter.Nearest).2
    TextureFilter.Linear TextureFilter.Nearest

/-- Counterexample to C5 as stated: two `setFilter` calls in the same
frame on a texture with a live sampler and an allocated descriptor set
issue TWO vkUpdateDescriptorSets calls (one per call, writing samplers
10 then 11), not exactly one. -/
theorem setFilter_twice_not_one_update :
    c5after.1.descriptorUpdates.length = 2 ∧
    ¬ c5after.1.descriptorUpdates.length = 1 := by
  exact ⟨rfl, by decide⟩

/-- C5 (amended): two `setFilter` calls in the same frame before any
draw issue one descriptor-set update each — two in total — and it is
the last one that reflects the final sampler: the texture ends with the
second freshly created sampler, which the sampler log shows was built
with the final filter pair, and the two replaced samplers (the original
one and the intermediate one, which differ) are each enqueued in the
deferred-deletion queue exactly once, tagged with the unchanged current
frame. -/
theorem setFilter_twice_final_sampler (t : Texture) (s : RendererState)
    (mi1 ma1 mi2 ma2 : TextureFilter)
    (hs : t.sampler ≠ 0) (hd : t.descriptorSet ≠ 0)
    (hn : s.nextHandle ≠ 0) (hfr : t.sampler ≠ s.nextHandle) :
    ((setFilter (setFilter t s mi1 ma1).1 (setFilter t s mi1 ma1).2 mi2 ma2).1.descriptorUpdates
        = t.descriptorUpdates ++ [s.nextHandle, s.nextHandle + 1]) ∧
    ((setFilter (setFilter t s mi1 ma1).1 (setFilter t s mi1 ma1).2 mi2 ma2).1.sampler
        = s.nextHandle + 1) ∧
    ((setFilter (setFilter t s mi1 ma1).1 (setFilter t s mi1 ma1).2 mi2 ma2).2.samplerLog
        = s.samplerLog ++ [(s.nextHandle, mi1, ma1), (s.nextHandle + 1, mi2, ma2)]) ∧
    ((setFilter (setFilter t s mi1 ma1).1 (setFilter t s mi1 ma1).2 mi2 ma2).2.deferredDeletions
        = s.deferredDeletions ++
          [{ type := DeletionKind.Sampler, handle := t.sampler, frameIndex := s.currentFrame },
           { type := DeletionKind.Sampler, handle := s.nextHandle
             frameIndex := s.currentFrame }]) ∧
    t.sampler ≠ s.nextHandle ∧
    ((setFilter (setFilter t s mi1 ma1).1 (setFilter t s mi1 ma1).2 mi2 ma2).2.currentFrame
        = s.currentFrame) := by
  simp [setFilter, createSampler, deferDeleteSampler, deferDelete, hs, hd, hn, hfr]

/-- Witness for C5 (amended) at the concrete scenario: updates
[10, 11], final sampler 11. -/
theorem setFilter_twice_final_sampler_witness :
    c5after.1.descriptorUpdates = [10, 11] ∧ c5after.1.sampler = 11 := by
  have h := setFilter_twice_final_sampler c5texture c5renderer
    TextureFilter.Nearest TextureFilter.Nearest TextureFilter.Linear TextureFilter.Nearest
    (by decide) (by decide) (by decide) (by decide)
  exact ⟨h.1, h.2.1⟩

/-! ## C8 -/

theorem alignUp_zero (a : Nat) : alignUp 0 a = 0 := by
  rcases Nat.eq_zero_or_pos a with h | h
  · simp [alignUp, h]
  · have : (0 + a - 1) % a = 0 + a - 1 := Nat.mod_eq_of_lt (by omega)
    simp [alignUp, this]

theorem findBlockIdx_some (d : MemoryBlock) (t size a : Nat) :
    ∀ (l : List MemoryBlock) (i : Nat), findBlockIdx t size a l = some i →
      i < l.length ∧ (l.getD i d).memoryTypeIndex = t ∧
      alignUp (l.getD i d).used a + size ≤ (l.getD i d).size := by
  intro l
  induction l with
  | nil => intro i h; simp [findBlockIdx] at h
  | cons b rest ih =>
    intro i h
    by_cases hb : b.memoryTypeIndex = t ∧ alignUp b.used a + size ≤ b.size
    · simp [findBlockIdx, hb] at h
      subst h
      simpa [List.getD] using ⟨hb.1, hb.2⟩
    · simp [findBlockIdx, hb] at h
      obtain ⟨j, hj, rfl⟩ := h
      refine ⟨Nat.succ_lt_succ (ih j hj).1, ?_, ?_⟩
      · simpa [List.getD] using (ih j hj).2.1
      · simpa [List.getD] using (ih j hj).2.2

theorem setBlockUsed_append (u : Nat) (b : MemoryBlock) :
    ∀ (l : List MemoryBlock), setBlockUsed (l ++ [b]) l.length u = l ++ [{ b with used := u }] := by
  intro l
  induction l with
  | nil => rfl
  | cons c rest ih => simpa [setBlockUsed] using ih

theorem getD_append_length (d b : MemoryBlock) :
    ∀ (l : List MemoryBlock), (l ++ [b]).getD l.length d = b := by
  intro l
  induction l with
  | nil => rfl
  | cons c rest ih => simp [List.getD] at ih ⊢

/-- Counterexample to C8 as stated: a 1 KiB image allocation — far
below the 16 MiB threshold — is given a dedicated allocation
(offset 0, no owning block) and the block list is left untouched, even
though a matching block with ample aligned free space exists, because
`allocateImageMemory` never consults the pool. -/
theorem allocateImageMemory_small_not_pooled :
    (allocateImageMemory
        { memoryBlocks := [{ memory := 1, size := DEFAULT_BLOCK_SIZE, used := 0
                             memoryTypeIndex := 0 }]
          nextMem := 2, freedLog := [] }
        { size := 1024, alignment := 256, memoryTypeIndex := 0 } true).map
      (fun r => (r.1.owningBlock, r.1.offset, r.2.memoryBlocks)) =
      .ok (none, 0,
        [{ memory := 1, size := DEFAULT_BLOCK_SIZE, used := 0, memoryTypeIndex := 0 }]) ∧
    (1024 : Nat) < POOL_THRESHOLD ∧
    alignUp 0 256 + 1024 ≤ DEFAULT_BLOCK_SIZE := by
  refine ⟨rfl, by decide, by decide⟩

/-- C8 (amended): the pooled path applies to buffer allocations only.
For a buffer request below the 16 MiB threshold: if some existing block
of the matching memory type fits, the allocation is served from the
first such block at its next alignment-rounded offset; if none fits and
pool-block creation succeeds, a fresh block sized
`max(DEFAULT_BLOCK_SIZE, 2 × size)` is appended and the allocation
starts at its offset 0; if pool-block creation fails, or the request is
at or above the threshold, the result is a dedicated allocation sized
exactly to the requirement at offset 0 with no owning block.  An image
request always gets such a dedicated allocation, whatever its size. -/
theorem allocate_memory_pooling (st : MemoryAllocator) (req : MemReq)
    (poolAllocOk dedicatedOk : Bool) :
    (req.size < POOL_THRESHOLD →
      ∀ i, findBlockIdx req.memoryTypeIndex req.size req.alignment st.memoryBlocks = some i →
        allocateBufferMemory st req poolAllocOk dedicatedOk =
          .ok ({ memory := (st.memoryBlocks.getD i
                    { memory := 0, size := 0, used := 0, memoryTypeIndex := 0 }).memory
                 offset := alignUp (st.memoryBlocks.getD i
                    { memory := 0, size := 0, used := 0, memoryTypeIndex := 0 }).used req.alignment
                 size := req.size, owningBlock := some i },
               { st with memoryBlocks := (setBlockUsed st.memoryBlocks i
                   (alignUp (st.memoryBlocks.getD i
                      { memory := 0, size := 0, used := 0, memoryTypeIndex := 0 }).used
                      req.alignment + req.size)) })) ∧
    (req.size < POOL_THRESHOLD →
      findBlockIdx req.memoryTypeIndex req.size req.alignment st.memoryBlocks = none →
      poolAllocOk = true →
        allocateBufferMemory st req poolAllocOk dedicatedOk =
          .ok ({ memory := st.nextMem, offset := 0, size := req.size
                 owningBlock := some st.memoryBlocks.length },
               { st with memoryBlocks := (st.memoryBlocks ++
                           [{ memory := st.nextMem
                              size := max DEFAULT_BLOCK_SIZE (req.size * 2)
                              used := req.size
                              memoryTypeIndex := req.memoryTypeIndex }])
                         nextMem := st.nextMem + 1 })) ∧
    (req.size < POOL_THRESHOLD →
      findBlockIdx req.memoryTypeIndex req.size req.alignment st.memoryBlocks = none →
      poolAllocOk = false → dedicatedOk = true →
        allocateBufferMemory st req poolAllocOk dedicatedOk =
          .ok ({ memory := st.nextMem, offset := 0, size := req.size, owningBlock := none },
               { st with nextMem := st.nextMem + 1 })) ∧
    (POOL_THRESHOLD ≤ req.size → dedicatedOk = true →
        allocateBufferMemory st req poolAllocOk dedicatedOk =
          .ok ({ memory := st.nextMem, offset := 0, size := req.size, owningBlock := none },
               { st with nextMem := st.nextMem + 1 })) ∧
    (dedicatedOk = true →
        allocateImageMemory st req dedicatedOk =
          .ok ({ memory := st.nextMem, offset := 0, size := req.size, owningBlock := none },
               { st with nextMem := st.nextMem + 1 })) := by
  refine ⟨?_, ?_, ?_, ?_, ?_⟩
  · intro hsmall i hidx
    have hspec := findBlockIdx_some { memory := 0, size := 0, used := 0, memoryTypeIndex := 0 }
      req.memoryTypeIndex req.size req.alignment st.memoryBlocks i hidx
    have hfit : alignUp (st.memoryBlocks.getD i
        { memory := 0, size := 0, used := 0, memoryTypeIndex := 0 }).used req.alignment
        + req.size ≤ (st.memoryBlocks.getD i
        { memory := 0, size := 0, used := 0, memoryTypeIndex := 0 }).size := hspec.2.2
    simp [allocateBufferMemory, hsmall, findOrCreateBlock, hidx, hfit]
    intro hlt
    simp only [List.getD, List.get?_eq_getElem?] at hfit
    omega
  · intro hsmall hidx hpool
    have hfit : alignUp (0 : Nat) req.alignment + req.size
        ≤ max DEFAULT_BLOCK_SIZE (req.size * 2) := by
      rw [alignUp_zero]
      exact le_max_of_le_right (by omega)
    have hb := getD_append_length { memory := 0, size := 0, used := 0, memoryTypeIndex := 0 }
      { memory := st.nextMem, size := max DEFAULT_BLOCK_SIZE (req.size * 2), used := 0
        memoryTypeIndex := req.memoryTypeIndex } st.memoryBlocks
    have hset := setBlockUsed_append (alignUp (0 : Nat) req.alignment + req.size)
      { memory := st.nextMem, size := max DEFAULT_BLOCK_SIZE (req.size * 2), used := 0
        memoryTypeIndex := req.memoryTypeIndex } st.memoryBlocks
    simp only [allocateBufferMemory, hsmall, if_true, findOrCreateBlock, hidx, hpool, if_pos]
    rw [hb]
    simp only [hfit, if_pos]
    rw [hset]
    simp [alignUp_zero]
  · intro hsmall hidx hpool hded
    simp [allocateBufferMemory, hsmall, findOrCreateBlock, hidx, hpool, dedicatedAlloc, hded]
  · intro hlarge hded
    simp [allocateBufferMemory, Nat.not_lt_of_le hlarge, dedicatedAlloc, hded]
  · intro hded
    simp [allocateImageMemory, dedicatedAlloc, hded]

/-- Witness for C8 (amended) at a concrete allocator: a 1 KiB buffer
request is served from the existing matching block at aligned offset
256, while the same-size image request of the counterexample is
dedicated. -/
theorem allocate_memory_pooling_witness :
    allocateBufferMemory
        { memoryBlocks := [{ memory := 1, size := DEFAULT_BLOCK_SIZE, used := 100
                             memoryTypeIndex := 0 }]
          nextMem := 2, freedLog := [] }
        { size := 1024, alignment := 256, memoryTypeIndex := 0 } true true =
      .ok ({ memory := 1, offset := 256, size := 1024, owningBlock := some 0 },
           { memoryBlocks := [{ memory := 1, size := DEFAULT_BLOCK_SIZE, used := 1280
                                memoryTypeIndex := 0 }]
             nextMem := 2, freedLog := [] }) := by
  have h := (allocate_memory_pooling
      { memoryBlocks := [{ memory := 1, size := DEFAULT_BLOCK_SIZE, used := 100
                           memoryTypeIndex := 0 }]
        nextMem := 2, freedLog := [] }
      { size := 1024, alignment := 256, memoryTypeIndex := 0 } true true).1
      (by decide) 0 (by decide)
  rw [h]
  rfl

/-! ## C6 -/

/-- C6: after `recreateSwapChain` returns, with a live device/shader
manager and successful pipeline compilation, the number of compiled
pipelines equals the number of previously-loaded shader identities, the
shader identities themselves are unchanged, every program holds a
pipeline rebuilt against the new render pass generation and the new
extent (so the pre-recreate pipelines, built against the old
generation, were all destroyed and replaced), and the per-image
in-flight tracking is reset to null entries sized to the new image
count. -/
theorem recreateSwapChain_rebuild (dev : Dev) (s : RendererState)
    (hd : s.deviceReady = true) (hb : dev.pipelineBuildOk = true) :
    (((recreateSwapChain dev s).shaders.filter (fun e => e.2.pipeline.isSome)).length
        = s.shaders.length) ∧
    ((recreateSwapChain dev s).shaders.map Prod.fst = s.shaders.map Prod.fst) ∧
    (∀ e ∈ (recreateSwapChain dev s).shaders,
        e.2.pipeline = some { cullBack := s.cullingEnabled
                              renderPassGen := s.renderPassGen + 1
                              extent := dev.surfaceExtent }) ∧
    ((recreateSwapChain dev s).renderPassGen = s.renderPassGen + 1) ∧
    ((recreateSwapChain dev s).swapChainExtent = dev.surfaceExtent) ∧
    ((recreateSwapChain dev s).imagesInFlight = List.replicate dev.imageCount none) := by
  have hsh : (recreateSwapChain dev s).shaders =
      s.shaders.map (fun e =>
        (e.1, { e.2 with pipeline := some { cullBack := s.cullingEnabled
                                            renderPassGen := s.renderPassGen + 1
                                            extent := dev.surfaceExtent } })) := by
    simp [recreateSwapChain, destroyAllPipelines, createAllPipelines,
      createPipelineForShader, hd, hb, Function.comp]
  refine ⟨?_, ?_, ?_, ?_, ?_, ?_⟩
  · rw [hsh]
    rw [List.filter_map]
    simp [Function.comp]
  · rw [hsh]
    simp
  · rw [hsh]
    intro e he
    simp only [List.mem_map] at he
    obtain ⟨a, -, rfl⟩ := he
    rfl
  · simp [recreateSwapChain, hd]
  · simp [recreateSwapChain, hd]
  · simp [recreateSwapChain, hd]

/-- Witness for C6: recreating over a registry with two shaders (one
compiled, one not) yields two compiled pipelines against the new render
pass generation and a reset three-entry in-flight table. -/
theorem recreateSwapChain_rebuild_witness :
    (((recreateSwapChain { okDev with imageCount := 3, surfaceExtent := (1024, 768) }
        { initState 2 with shaders :=
            [("a", { vertexModule := 1, fragmentModule := 2
                     pipeline := some { cullBack := false, renderPassGen := 0
                                        extent := (800, 600) }
                     isValid := true }),
             ("b", { vertexModule := 3, fragmentModule := 4, pipeline := none
                     isValid := true })] }).shaders.filter
        (fun e => e.2.pipeline.isSome)).length = 2) ∧
    ((recreateSwapChain { okDev with imageCount := 3, surfaceExtent := (1024, 768) }
        { initState 2 with shaders :=
            [("a", { vertexModule := 1, fragmentModule := 2
                     pipeline := some { cullBack := false, renderPassGen := 0
                                        extent := (800, 600) }
                     isValid := true }),
             ("b", { vertexModule := 3, fragmentModule := 4, pipeline := none
                     isValid := true })] }).imagesInFlight = List.replicate 3 none) := by
  have h := recreateSwapChain_rebuild { okDev with imageCount := 3, surfaceExtent := (1024, 768) }
    { initState 2 with shaders :=
        [("a", { vertexModule := 1, fragmentModule := 2
                 pipeline := some { cullBack := false, renderPassGen := 0
                                    extent := (800, 600) }
                 isValid := true }),
         ("b", { vertexModule := 3, fragmentModule := 4, pipeline := none
                 isValid := true })] }
    rfl rfl
  exact ⟨h.1, h.2.2.2.2.2⟩

/-! ## C7 -/

/-- Every compiled pipeline in the registry has the cull mode implied by
the renderer's current culling flag: back-face culling when enabled,
none otherwise (`cullBack = cullingEnabled`). -/
def cullConsistent (s : RendererState) : Bool :=
  s.shaders.all (fun e =>
    match e.2.pipeline with
    | some pl => pl.cullBack == s.cullingEnabled
    | none => true)

theorem enableCulling_preserves (buildOk : Bool) (s : RendererState) (e : Bool)
    (hd : s.deviceReady = true) (hc : cullConsistent s = true) :
    cullConsistent (enableCulling buildOk s e) = true ∧
    (enableCulling buildOk s e).shaders.map Prod.fst = s.shaders.map Prod.fst ∧
    (enableCulling buildOk s e).deviceReady = true := by
  by_cases hsame : s.cullingEnabled = e
  · simp [enableCulling, hsame, hc, hd]
  · simp only [enableCulling, hsame, if_false, hd, if_true, ite_false, ite_true]
    refine ⟨?_, ?_, ?_⟩
    · cases buildOk <;>
        simp [cullConsistent, destroyAllPipelines, createAllPipelines,
          createPipelineForShader, List.all_eq_true, hd]
    · simp [destroyAllPipelines, createAllPipelines, hd]
    · trivial

theorem enableCulling_foldl (buildOk : Bool) (es : List Bool) :
    ∀ s : RendererState, s.deviceReady = true → cullConsistent s = true →
      cullConsistent (es.foldl (enableCulling buildOk) s) = true ∧
      (es.foldl (enableCulling buildOk) s).shaders.map Prod.fst = s.shaders.map Prod.fst := by
  induction es with
  | nil =>
    intro s _ hc
    exact ⟨hc, rfl⟩
  | cons e rest ih =>
    intro s hd hc
    have hstep := enableCulling_preserves buildOk s e hd hc
    have hrec := ih (enableCulling buildOk s e) hstep.2.2 hstep.1
    exact ⟨hrec.1, by rw [List.foldl_cons, hrec.2, hstep.2.1]⟩

/-- C7: calling `enableCulling` with the currently-set value is a
no-op — the returned state is the given one.  And for any sequence of
`enableCulling` calls starting from a state whose compiled pipelines
agree with its culling flag (true of every state the renderer
produces, since every build bakes in the current flag), the final state
again has every compiled pipeline's cull mode equal to the final
culling flag — back-face culling iff enabled — and the set of loaded
shader identities is unchanged. -/
theorem enableCulling_noop_and_final (buildOk : Bool) (s : RendererState) (es : List Bool)
    (hd : s.deviceReady = true) (hc : cullConsistent s = true) :
    (∀ e, s.cullingEnabled = e → enableCulling buildOk s e = s) ∧
    cullConsistent (es.foldl (enableCulling buildOk) s) = true ∧
    (es.foldl (enableCulling buildOk) s).shaders.map Prod.fst = s.shaders.map Prod.fst := by
  refine ⟨?_, ?_⟩
  · intro e he
    simp [enableCulling, he]
  · exact enableCulling_foldl buildOk es s hd hc

/-- Witness for C7: toggling culling on and then off over a registry
with one compiled pipeline leaves the shader set unchanged and the
pipeline's cull mode matching the final (disabled) state. -/
theorem enableCulling_noop_and_final_witness :
    (enableCulling true
      { initState 2 with shaders :=
          [("a", { vertexModule := 1, fragmentModule := 2
                   pipeline := some { cullBack := false, renderPassGen := 0
                                      extent := (800, 600) }
                   isValid := true })] }
      false =
      { initState 2 with shaders :=
          [("a", { vertexModule := 1, fragmentModule := 2
                   pipeline := some { cullBack := false, renderPassGen := 0
                                      extent := (800, 600) }
                   isValid := true })] }) ∧
    cullConsistent ([true, false].foldl (enableCulling true)
      { initState 2 with shaders :=
          [("a", { vertexModule := 1, fragmentModule := 2
                   pipeline := some { cullBack := false, renderPassGen := 0
                                      extent := (800, 600) }
                   isValid := true })] }) = true := by
  have h := enableCulling_noop_and_final true
    { initState 2 with shaders :=
        [("a", { vertexModule := 1, fragmentModule := 2
                 pipeline := some { cullBack := false, renderPassGen := 0
                                    extent := (800, 600) }
                 isValid := true })] }
    [true, false] rfl (by decide)
  exact ⟨h.1 false rfl, h.2.1⟩

/-! ## C2 -/

theorem getD_set_self (v : Option Nat) :
    ∀ (l : List (Option Nat)) (i : Nat), i < l.length →
      (l.set i v).getD i none = v := by
  intro l
  induction l with
  | nil => intro i h; simp at h
  | cons c rest ih =>
    intro i h
    cases i with
    | zero => rfl
    | succ j =>
      have hj : j < rest.length := Nat.lt_of_succ_lt_succ h
      simpa [List.getD] using ih j hj

theorem getD_set_ne (v : Option Nat) :
    ∀ (l : List (Option Nat)) (i j : Nat), j ≠ i →
      (l.set i v).getD j none = l.getD j none := by
  intro l
  induction l with
  | nil => intro i j _; simp
  | cons c rest ih =>
    intro i j hne
    cases i with
    | zero =>
      cases j with
      | zero => exact absurd rfl hne
      | succ k => simp [List.getD]
    | succ i2 =>
      cases j with
      | zero => rfl
      | succ k =>
        have : k ≠ i2 := fun h => hne (by rw [h])
        simpa [List.getD] using ih i2 k this

/-- The image-in-flight tracking invariant of the frame protocol: every
submitted-but-not-yet-waited batch `(slot, image)` is registered in
`imagesInFlight` under its image, and while a frame is being recorded
the acquired image is registered to the recording slot and no unwaited
batch targets it. -/
def TrackInv (s : RendererState) : Prop :=
  (∀ p ∈ s.outstanding, s.imagesInFlight.getD p.2 none = some p.1) ∧
  (s.frameBegun = true →
    s.imagesInFlight.getD s.imageIndex none = some s.currentFrame ∧
    ∀ p ∈ s.outstanding, p.2 ≠ s.imageIndex)

/-- vkAcquireNextImageKHR only ever reports an index below the
swapchain image count. -/
def AcquireInRange (dev : Dev) (s : RendererState) : Prop :=
  match dev.acquire with
  | AcquireResult.success i => i < s.imagesInFlight.length
  | AcquireResult.suboptimal i => i < s.imagesInFlight.length
  | _ => True

theorem recreateSwapChain_outstanding (dev : Dev) (s : RendererState) :
    (recreateSwapChain dev s).outstanding = [] := by
  unfold recreateSwapChain
  dsimp only
  split <;> rfl

theorem recreateSwapChain_frameBegun (dev : Dev) (s : RendererState) :
    (recreateSwapChain dev s).frameBegun = s.frameBegun := by
  unfold recreateSwapChain
  dsimp only
  split <;> rfl

theorem TrackInv_of_nil (w : RendererState) (h1 : w.outstanding = [])
    (h2 : w.frameBegun = false) : TrackInv w := by
  constructor
  · intro p hp
    rw [h1] at hp
    exact absurd hp (List.not_mem_nil p)
  · intro habs
    rw [h2] at habs
    exact absurd habs (by simp)

theorem endFrame_preserves_TrackInv (dev : Dev) (u u1 : RendererState)
    (hu : TrackInv u) (hok : endFrame dev u = .ok u1) : TrackInv u1 := by
  unfold endFrame at hok
  dsimp only at hok
  by_cases hfb : u.frameBegun = false
  · rw [if_pos hfb] at hok
    injection hok with h
    subst h
    exact hu
  · have hfb2 : u.frameBegun = true := by
      cases h : u.frameBegun
      · exact absurd h hfb
      · rfl
    rw [if_neg hfb] at hok
    by_cases hend : dev.endOk = false
    · rw [if_pos hend] at hok
      exact absurd hok (by simp)
    · rw [if_neg hend] at hok
      by_cases hsub : dev.submitOk = false
      · rw [if_pos hsub] at hok
        exact absurd hok (by simp)
      · rw [if_neg hsub] at hok
        by_cases hpr : dev.present = PresentOutcome.stale ∨ u.framebufferResized = true
        · rw [if_pos hpr] at hok
          dsimp only at hok
          simp only [Except.ok.injEq] at hok
          subst hok
          refine TrackInv_of_nil _ ?_ rfl
          simp [processDeferredDeletions, recreateSwapChain_outstanding]
        · rw [if_neg hpr] at hok
          by_cases hprf : dev.present = PresentOutcome.failure
          · rw [if_pos hprf] at hok
            exact absurd hok (by simp)
          · rw [if_neg hprf] at hok
            dsimp only at hok
            simp only [Except.ok.injEq] at hok
            subst hok
            refine ⟨?_, ?_⟩
            · intro p hp
              have hp2 : p = (u.currentFrame, u.imageIndex) ∨ p ∈ u.outstanding := by
                simpa [processDeferredDeletions] using hp
              show u.imagesInFlight.getD p.2 none = some p.1
              rcases hp2 with rfl | hp3
              · exact (hu.2 hfb2).1
              · exact hu.1 p hp3
            · intro habs
              simp [processDeferredDeletions] at habs

theorem beginFrame_claim (dev : Dev) (s s1 : RendererState) (acts : List Action)
    (hInv : TrackInv s) (hAcq : AcquireInRange dev s) (hb : s.frameBegun = false)
    (hok : beginFrame dev s = .ok (s1, acts)) :
    TrackInv s1 ∧
    (s1.frameBegun = true → ∀ p ∈ s1.outstanding, p.2 ≠ s1.imageIndex) ∧
    (∀ i f, (dev.acquire = AcquireResult.success i ∨ dev.acquire = AcquireResult.suboptimal i) →
       s.imagesInFlight.getD i none = some f → currentPipeline s ≠ none →
       acts = [Action.waitOwnFence s.currentFrame, Action.waitImageFence f,
               Action.setImageInFlight i s.currentFrame, Action.resetOwnFence s.currentFrame,
               Action.beginRecording i]) := by
  unfold beginFrame at hok
  cases hpipe : currentPipeline s with
  | none =>
    rw [hpipe] at hok
    dsimp only at hok
    simp only [Except.ok.injEq, Prod.mk.injEq] at hok
    obtain ⟨h1, h2⟩ := hok
    subst h1
    subst h2
    refine ⟨hInv, ?_, ?_⟩
    · intro habs
      rw [hb] at habs
      exact absurd habs (by simp)
    · intro i f hi hf hpn
      exact absurd rfl hpn
  | some pl =>
    rw [hpipe] at hok
    dsimp only [waitFence] at hok
    cases hacq : dev.acquire with
    | outOfDate =>
      rw [hacq] at hok
      dsimp only at hok
      simp only [Except.ok.injEq, Prod.mk.injEq] at hok
      obtain ⟨h1, h2⟩ := hok
      subst h1
      subst h2
      refine ⟨TrackInv_of_nil _ (recreateSwapChain_outstanding dev _) ?_, ?_, ?_⟩
      · rw [recreateSwapChain_frameBegun]
        exact hb
      · intro habs
        rw [recreateSwapChain_frameBegun] at habs
        exact absurd (show s.frameBegun = true from habs) (by simp [hb])
      · intro i f hi hf hpn
        rcases hi with hi | hi <;> exact AcquireResult.noConfusion hi
    | failure =>
      rw [hacq] at hok
      dsimp only at hok
      exact absurd hok (by simp)
    | success i =>
      rw [hacq] at hok
      dsimp only at hok
      have hlen : i < s.imagesInFlight.length := by
        unfold AcquireInRange at hAcq
        rw [hacq] at hAcq
        exact hAcq
      cases hent : s.imagesInFlight.getD i none with
      | some f =>
        rw [hent] at hok
        dsimp only at hok
        by_cases hbo : dev.beginOk = true
        · rw [if_pos hbo] at hok
          simp only [Except.ok.injEq, Prod.mk.injEq] at hok
          obtain ⟨h1, h2⟩ := hok
          subst h1
          subst h2
          have hmem : ∀ p : Nat × Nat,
              p ∈ (s.outstanding.filter (fun q => q.1 != s.currentFrame)).filter
                    (fun q => q.1 != f) →
              p ∈ s.outstanding ∧ p.1 ≠ s.currentFrame ∧ p.1 ≠ f := by
            intro p hp
            simp only [List.mem_filter, bne_iff_ne, ne_eq] at hp
            exact ⟨hp.1.1, hp.1.2, hp.2⟩
          have hnoti : ∀ p : Nat × Nat,
              p ∈ (s.outstanding.filter (fun q => q.1 != s.currentFrame)).filter
                    (fun q => q.1 != f) →
              p.2 ≠ i := by
            intro p hp hpi
            have hp2 := hmem p hp
            have hx := hInv.1 p hp2.1
            rw [hpi, hent] at hx
            exact hp2.2.2 (by injection hx with hx2; exact hx2.symm)
          refine ⟨⟨?_, ?_⟩, ?_, ?_⟩
          · intro p hp
            show (s.imagesInFlight.set i (some s.currentFrame)).getD p.2 none = some p.1
            by_cases hpi : p.2 = i
            · exact absurd hpi (hnoti p hp)
            · rw [getD_set_ne _ _ _ _ hpi]
              exact hInv.1 p (hmem p hp).1
          · intro _
            refine ⟨?_, ?_⟩
            · show (s.imagesInFlight.set i (some s.currentFrame)).getD i none
                = some s.currentFrame
              exact getD_set_self _ _ _ hlen
            · intro p hp
              exact hnoti p hp
          · intro _ p hp
            exact hnoti p hp
          · intro i2 f2 hi2 hf2 _
            have hii : i2 = i := by
              rcases hi2 with hi2 | hi2
              · injection hi2 with h
                exact h.symm
              · exact AcquireResult.noConfusion hi2
            subst hii
            rw [hent] at hf2
            injection hf2 with hff
            subst hff
            rfl
        · rw [if_neg hbo] at hok
          exact absurd hok (by simp)
      | none =>
        rw [hent] at hok
        dsimp only at hok
        by_cases hbo : dev.beginOk = true
        · rw [if_pos hbo] at hok
          simp only [Except.ok.injEq, Prod.mk.injEq] at hok
          obtain ⟨h1, h2⟩ := hok
          subst h1
          subst h2
          have hmem : ∀ p : Nat × Nat,
              p ∈ s.outstanding.filter (fun q => q.1 != s.currentFrame) →
              p ∈ s.outstanding ∧ p.1 ≠ s.currentFrame := by
            intro p hp
            simp only [List.mem_filter, bne_iff_ne, ne_eq] at hp
            exact hp
          have hnoti : ∀ p : Nat × Nat,
              p ∈ s.outstanding.filter (fun q => q.1 != s.currentFrame) →
              p.2 ≠ i := by
            intro p hp hpi
            have hx := hInv.1 p (hmem p hp).1
            rw [hpi, hent] at hx
            exact Option.noConfusion hx
          refine ⟨⟨?_, ?_⟩, ?_, ?_⟩
          · intro p hp
            show (s.imagesInFlight.set i (some s.currentFrame)).getD p.2 none = some p.1
            by_cases hpi : p.2 = i
            · exact absurd hpi (hnoti p hp)
            · rw [getD_set_ne _ _ _ _ hpi]
              exact hInv.1 p (hmem p hp).1
          · intro _
            refine ⟨?_, ?_⟩
            · show (s.imagesInFlight.set i (some s.currentFrame)).getD i none
                = some s.currentFrame
              exact getD_set_self _ _ _ hlen
            · intro p hp
              exact hnoti p hp
          · intro _ p hp
            exact hnoti p hp
          · intro i2 f2 hi2 hf2 _
            have hii : i2 = i := by
              rcases hi2 with hi2 | hi2
              · injection hi2 with h
                exact h.symm
              · exact AcquireResult.noConfusion hi2
            subst hii
            rw [hent] at hf2
            exact Option.noConfusion hf2
        · rw [if_neg hbo] at hok
          exact absurd hok (by simp)
    | suboptimal i =>
      rw [hacq] at hok
      dsimp only at hok
      have hlen : i < s.imagesInFlight.length := by
        unfold AcquireInRange at hAcq
        rw [hacq] at hAcq
        exact hAcq
      cases hent : s.imagesInFlight.getD i none with
      | some f =>
        rw [hent] at hok
        dsimp only at hok
        by_cases hbo : dev.beginOk = true
        · rw [if_pos hbo] at hok
          simp only [Except.ok.injEq, Prod.mk.injEq] at hok
          obtain ⟨h1, h2⟩ := hok
          subst h1
          subst h2
          have hmem : ∀ p : Nat × Nat,
              p ∈ (s.outstanding.filter (fun q => q.1 != s.currentFrame)).filter
                    (fun q => q.1 != f) →
              p ∈ s.outstanding ∧ p.1 ≠ s.currentFrame ∧ p.1 ≠ f := by
            intro p hp
            simp only [List.mem_filter, bne_iff_ne, ne_eq] at hp
            exact ⟨hp.1.1, hp.1.2, hp.2⟩
          have hnoti : ∀ p : Nat × Nat,
              p ∈ (s.outstanding.filter (fun q => q.1 != s.currentFrame)).filter
                    (fun q => q.1 != f) →
              p.2 ≠ i := by
            intro p hp hpi
            have hp2 := hmem p hp
            have hx := hInv.1 p hp2.1
            rw [hpi, hent] at hx
            exact hp2.2.2 (by injection hx with hx2; exact hx2.symm)
          refine ⟨⟨?_, ?_⟩, ?_, ?_⟩
          · intro p hp
            show (s.imagesInFlight.set i (some s.currentFrame)).getD p.2 none = some p.1
            by_cases hpi : p.2 = i
            · exact absurd hpi (hnoti p hp)
            · rw [getD_set_ne _ _ _ _ hpi]
              exact hInv.1 p (hmem p hp).1
          · intro _
            refine ⟨?_, ?_⟩
            · show (s.imagesInFlight.set i (some s.currentFrame)).getD i none
                = some s.currentFrame
              exact getD_set_self _ _ _ hlen
            · intro p hp
              exact hnoti p hp
          · intro _ p hp
            exact hnoti p hp
          · intro i2 f2 hi2 hf2 _
            have hii : i2 = i := by
              rcases hi2 with hi2 | hi2
              · exact AcquireResult.noConfusion hi2
              · injection hi2 with h
                exact h.symm
            subst hii
            rw [hent] at hf2
            injection hf2 with hff
            subst hff
            rfl
        · rw [if_neg hbo] at hok
          exact absurd hok (by simp)
      | none =>
        rw [hent] at hok
        dsimp only at hok
        by_cases hbo : dev.beginOk = true
        · rw [if_pos hbo] at hok
          simp only [Except.ok.injEq, Prod.mk.injEq] at hok
          obtain ⟨h1, h2⟩ := hok
          subst h1
          subst h2
          have hmem : ∀ p : Nat × Nat,
              p ∈ s.outstanding.filter (fun q => q.1 != s.currentFrame) →
              p ∈ s.outstanding ∧ p.1 ≠ s.currentFrame := by
            intro p hp
            simp only [List.mem_filter, bne_iff_ne, ne_eq] at hp
            exact hp
          have hnoti : ∀ p : Nat × Nat,
              p ∈ s.outstanding.filter (fun q => q.1 != s.currentFrame) →
              p.2 ≠ i := by
            intro p hp hpi
            have hx := hInv.1 p (hmem p hp).1
            rw [hpi, hent] at hx
            exact Option.noConfusion hx
          refine ⟨⟨?_, ?_⟩, ?_, ?_⟩
          · intro p hp
            show (s.imagesInFlight.set i (some s.currentFrame)).getD p.2 none = some p.1
            by_cases hpi : p.2 = i
            · exact absurd hpi (hnoti p hp)
            · rw [getD_set_ne _ _ _ _ hpi]
              exact hInv.1 p (hmem p hp).1
          · intro _
            refine ⟨?_, ?_⟩
            · show (s.imagesInFlight.set i (some s.currentFrame)).getD i none
                = some s.currentFrame
              exact getD_set_self _ _ _ hlen
            · intro p hp
              exact hnoti p hp
          · intro _ p hp
            exact hnoti p hp
          · intro i2 f2 hi2 hf2 _
            have hii : i2 = i := by
              rcases hi2 with hi2 | hi2
              · exact AcquireResult.noConfusion hi2
              · injection hi2 with h
                exact h.symm
            subst hii
            rw [hent] at hf2
            exact Option.noConfusion hf2
        · rw [if_neg hbo] at hok
          exact absurd hok (by simp)

/-- C2: the image-in-flight protocol of `beginFrame`.  Under the
tracking invariant `TrackInv` (which holds initially, when nothing is
outstanding), with the acquired index in range and no frame already in
progress:
(i) every successful `beginFrame` preserves `TrackInv`, and whenever it
begins recording, no submitted-but-not-fence-waited batch targets the
acquired image `s1.imageIndex` — so no other Frame Slot can still be
writing that swapchain image when recording (and the subsequent
submission) for it starts;
(ii) when the acquired image's images-in-flight entry holds a fence
`some f`, the action trace of `beginFrame` is exactly: wait own fence,
wait fence `f`, overwrite the entry with the current slot, reset the own
fence, begin recording — the wait on `f` comes chronologically before
the entry is overwritten and before any command recording;
(iii) `endFrame` preserves `TrackInv`, closing the induction over any
sequence of frames. -/
theorem beginFrame_image_in_flight_wait (dev : Dev) (s : RendererState)
    (hInv : TrackInv s) (hAcq : AcquireInRange dev s) (hb : s.frameBegun = false) :
    (∀ s1 acts, beginFrame dev s = .ok (s1, acts) →
       TrackInv s1 ∧
       (s1.frameBegun = true → ∀ p ∈ s1.outstanding, p.2 ≠ s1.imageIndex) ∧
       (∀ i f,
          (dev.acquire = AcquireResult.success i ∨ dev.acquire = AcquireResult.suboptimal i) →
          s.imagesInFlight.getD i none = some f → currentPipeline s ≠ none →
          acts = [Action.waitOwnFence s.currentFrame, Action.waitImageFence f,
                  Action.setImageInFlight i s.currentFrame, Action.resetOwnFence s.currentFrame,
                  Action.beginRecording i])) ∧
    (∀ (u u1 : RendererState), TrackInv u → endFrame dev u = .ok u1 → TrackInv u1) :=
  ⟨fun s1 acts hok => beginFrame_claim dev s s1 acts hInv hAcq hb hok,
   fun u u1 hu hok => endFrame_preserves_TrackInv dev u u1 hu hok⟩

/-- The C2 witness scenario: slot 0 is about to begin a frame, image 0
is still claimed by slot 1's fence (one batch of slot 1 on image 0 is
outstanding), and a shader with a compiled pipeline is bound. -/
def c2state : RendererState :=
  { initState 2 with
      imagesInFlight := [some 1, none]
      outstanding := [(1, 0)]
      currentShader := some "tri"
      shaders := [("tri", { vertexModule := 1, fragmentModule := 2
                            pipeline := some { cullBack := false, renderPassGen := 0
                                               extent := (800, 600) }
                            isValid := true })] }

/-- The state `beginFrame okDev c2state` produces: slot 1's fence was
waited (its batch left `outstanding`), image 0 now claimed by slot 0,
recording begun. -/
def c2result : RendererState :=
  { c2state with imagesInFlight := [some 0, none], frameBegun := true, outstanding := [] }

/-- The action trace of `beginFrame okDev c2state`. -/
def c2acts : List Action :=
  [Action.waitOwnFence 0, Action.waitImageFence 1, Action.setImageInFlight 0 0,
   Action.resetOwnFence 0, Action.beginRecording 0]

/-- Witness for C2: at the concrete scenario, `beginFrame` waits slot
1's fence before overwriting image 0's entry and before recording (the
trace is exactly `c2acts`), and the resulting state again satisfies the
tracking invariant. -/
theorem beginFrame_image_in_flight_wait_witness :
    beginFrame okDev c2state = Except.ok (c2result, c2acts) ∧ TrackInv c2result := by
  have hInv : TrackInv c2state := by
    unfold TrackInv
    decide
  have hAcq : AcquireInRange okDev c2state := (by decide : (0 : Nat) < 2)
  have hok : beginFrame okDev c2state = Except.ok (c2result, c2acts) := by rfl
  have h := (beginFrame_image_in_flight_wait okDev c2state hInv hAcq rfl).1
    c2result c2acts hok
  exact ⟨hok, h.1⟩

end VK
